import Mathlib

/-!
# Verification of the bike-sharing feature schema registry

Shallow embedding of `Data Lifecycle in Production/bikesharing_constants.py`:
module-level configuration constants for a feature pipeline, plus the
`transformed_name` helper.  Python lists become `List String`, the Python
dict `FEATURE_BUCKET_COUNT` becomes an association list, and dictionary
lookup (which raises `KeyError` on a missing key) becomes an
`Option`-returning lookup where `none` is the failure case.
-/

namespace BikeSharing

/-- Features with string data types that will be converted to indices
(`CATEGORICAL_FEATURE_KEYS` in the source). -/
def CATEGORICAL_FEATURE_KEYS : List String :=
  ["Functioning Day", "Holiday", "Seasons"]

/-- Numerical features that are marked as continuous
(`NUMERIC_FEATURE_KEYS` in the source). -/
def NUMERIC_FEATURE_KEYS : List String :=
  ["Humidity(%)", "Rainfall(mm)", "Snowfall (cm)", "Solar Radiation (MJ/m2)",
   "Temperature(°C)", "Visibility (10m)", "Wind speed (m/s)"]

/-- Feature that can be grouped into buckets
(`BUCKET_FEATURE_KEYS` in the source). -/
def BUCKET_FEATURE_KEYS : List String := ["Hour"]

/-- Number of buckets used for encoding each bucket feature
(`FEATURE_BUCKET_COUNT` in the source), a Python dict embedded as an
association list. -/
def FEATURE_BUCKET_COUNT : List (String × Nat) := [("Hour", 4)]

/-- Feature that the model will predict (`LABEL_KEY` in the source). -/
def LABEL_KEY : String := "Rented Bike Count"

/-- Utility function for renaming the feature
(`transformed_name` in the source): `return key + '_xf'`. -/
def transformed_name (key : String) : String := key ++ "_xf"

/-- Modelled from the spec: the registry accessor
`bucket_count(feature) -> integer` is not a function in the source; it is
realized there as the dictionary lookup `FEATURE_BUCKET_COUNT[feature]`,
which raises `KeyError` (the spec's `UnknownFeature`) on a missing key.
We embed lookup in the source's `FEATURE_BUCKET_COUNT` with `none` as the
failure case. -/
def bucket_count (feature : String) : Option Nat :=
  (FEATURE_BUCKET_COUNT.find? (fun p => p.1 == feature)).map Prod.snd

/-- `bucket_count` computed in closed form: the table holds only the key
`"Hour"` with value `4`. -/
lemma bucket_count_eq (f : String) :
    bucket_count f = if f = "Hour" then some 4 else none := by
  by_cases h : f = "Hour"
  · subst h; decide
  · have hb : (("Hour" : String) == f) = false :=
      beq_eq_false_iff_ne.mpr (fun e => h e.symm)
    simp [bucket_count, FEATURE_BUCKET_COUNT, List.find?, hb, h]

/-- C1: `transformed_name` appends the literal suffix `"_xf"` to every
string; in particular `transformed_name "Hour" = "Hour_xf"` and
`transformed_name "" = "_xf"`.  It is a total Lean function, so it is
defined for every string with no error conditions. -/
theorem transformed_name_appends_suffix :
    (∀ s : String, transformed_name s = s ++ "_xf") ∧
    transformed_name "Hour" = "Hour_xf" ∧
    transformed_name "" = "_xf" :=
  ⟨fun _ => rfl, rfl, rfl⟩

/-- C2: `bucket_count` fails (returns `none`, the embedding of the
`UnknownFeature` / `KeyError` failure) exactly on features outside the
bucketed feature set; on the member `"Hour"` it returns the configured
count `4`, and on the non-member `"NotAFeature"` it fails. -/
theorem bucket_count_fails_iff_unknown :
    (∀ f : String, bucket_count f = none ↔ f ∉ BUCKET_FEATURE_KEYS) ∧
    bucket_count "Hour" = some 4 ∧
    bucket_count "NotAFeature" = none := by
  refine ⟨fun f => ?_, by decide, by decide⟩
  rw [bucket_count_eq]
  by_cases h : f = "Hour" <;> simp [h, BUCKET_FEATURE_KEYS]

/-- C3: the categorical, numeric, and bucketed feature sets are pairwise
disjoint, and the label name is in none of the three. -/
theorem feature_sets_pairwise_disjoint :
    (∀ x : String,
      ¬(x ∈ CATEGORICAL_FEATURE_KEYS ∧ x ∈ NUMERIC_FEATURE_KEYS)) ∧
    (∀ x : String,
      ¬(x ∈ CATEGORICAL_FEATURE_KEYS ∧ x ∈ BUCKET_FEATURE_KEYS)) ∧
    (∀ x : String,
      ¬(x ∈ NUMERIC_FEATURE_KEYS ∧ x ∈ BUCKET_FEATURE_KEYS)) ∧
    LABEL_KEY ∉ CATEGORICAL_FEATURE_KEYS ∧
    LABEL_KEY ∉ NUMERIC_FEATURE_KEYS ∧
    LABEL_KEY ∉ BUCKET_FEATURE_KEYS := by
  refine ⟨fun x hx => ?_, fun x hx => ?_, fun x hx => ?_,
    by decide, by decide, by decide⟩ <;>
  · obtain ⟨h1, h2⟩ := hx
    simp only [CATEGORICAL_FEATURE_KEYS, NUMERIC_FEATURE_KEYS,
      BUCKET_FEATURE_KEYS, List.mem_cons, List.mem_singleton,
      List.not_mem_nil, or_false] at h1
    rcases h1 with rfl | rfl | rfl | rfl | rfl | rfl | rfl <;>
      exact absurd h2 (by decide)

/-- C4: the key list of the bucket-count table equals the bucketed feature
set (both are exactly `["Hour"]`), and every value in the table is a
positive integer. -/
theorem bucket_table_keys_and_values :
    FEATURE_BUCKET_COUNT.map Prod.fst = BUCKET_FEATURE_KEYS ∧
    FEATURE_BUCKET_COUNT.map Prod.fst = ["Hour"] ∧
    (FEATURE_BUCKET_COUNT.map Prod.snd).Forall (fun v => 0 < v) := by
  refine ⟨rfl, rfl, by decide⟩

/-- C5: the bucketed feature set is exactly `{"Hour"}`, and the bucket
count configured for `"Hour"` is `4`. -/
theorem bucketed_features_value :
    BUCKET_FEATURE_KEYS = ["Hour"] ∧ bucket_count "Hour" = some 4 :=
  ⟨rfl, by decide⟩

/-- C6: the categorical feature set is exactly
`{"Functioning Day", "Holiday", "Seasons"}`. -/
theorem categorical_features_value :
    CATEGORICAL_FEATURE_KEYS = ["Functioning Day", "Holiday", "Seasons"] :=
  rfl

/-- C7: the numeric feature set is exactly the fixed set of 7
continuous-valued column names. -/
theorem numeric_features_value :
    NUMERIC_FEATURE_KEYS =
      ["Humidity(%)", "Rainfall(mm)", "Snowfall (cm)",
       "Solar Radiation (MJ/m2)", "Temperature(°C)", "Visibility (10m)",
       "Wind speed (m/s)"] ∧
    NUMERIC_FEATURE_KEYS.length = 7 :=
  ⟨rfl, rfl⟩

/-- C8: the label is exactly the string `"Rented Bike Count"`. -/
theorem label_value : LABEL_KEY = "Rented Bike Count" := rfl

/-- C9: the declared feature names (categorical, numeric, and bucketed
together) are 11 distinct names, and the label is not among them. -/
theorem eleven_distinct_features_without_label :
    (CATEGORICAL_FEATURE_KEYS ++ NUMERIC_FEATURE_KEYS ++
      BUCKET_FEATURE_KEYS).Nodup ∧
    (CATEGORICAL_FEATURE_KEYS ++ NUMERIC_FEATURE_KEYS ++
      BUCKET_FEATURE_KEYS).length = 11 ∧
    LABEL_KEY ∉ (CATEGORICAL_FEATURE_KEYS ++ NUMERIC_FEATURE_KEYS ++
      BUCKET_FEATURE_KEYS) := by
  refine ⟨by decide, rfl, by decide⟩

/-- C10: `transformed_name` is injective — distinct inputs receive
distinct transformed names — and no string is its own transformed name. -/
theorem transformed_name_injective :
    (∀ s t : String, transformed_name s = transformed_name t → s = t) ∧
    (∀ s : String, transformed_name s ≠ s) := by
  constructor
  · intro s t h
    have hd : s.data ++ "_xf".data = t.data ++ "_xf".data := by
      have := congrArg String.data h
      simpa [transformed_name, String.data_append] using this
    exact String.ext (List.append_cancel_right hd)
  · intro s h
    have hl := congrArg String.length h
    simp [transformed_name, String.length_append] at hl
    exact absurd hl (by decide)

/-- Witness for C10: the injectivity hypothesis discharged at the
concrete input `"Hour"`, and self-difference evaluated there. -/
theorem transformed_name_injective_witness :
    ("Hour" : String) = "Hour" ∧ transformed_name "Hour" ≠ "Hour" :=
  ⟨transformed_name_injective.1 "Hour" "Hour" rfl,
   transformed_name_injective.2 "Hour"⟩

end BikeSharing
